import Mathlib

/-!
# Verification of the LDP wire-format codec and session engine

A shallow embedding of the LDP (RFC 5036) implementation in this repository:

* `ryu/lib/packet/ldp.py` — the PDU / message / TLV / FEC codec,
* `ryu/services/protocols/ldp_new/manager.py` — Hello reception, the peer
  registry and active/passive role resolution,
* `ryu/services/protocols/ldp_new/ldp_util.py` — router-id conversion,
* `ryu/services/protocols/ldp_new/peer.py` — the per-peer session state machine.

Byte strings are modelled as `List Nat` (each entry one octet).  The Python
exceptions that the code can raise are modelled by the `PyErr` type; fallible
code returns `Except PyErr α`.  Multi-byte integers are big endian, exactly as
`struct.pack὚!H὚ / ὚!L὚` produce them; the encoders assume in-range field
values (out-of-range values make `struct.pack` raise, which never happens in
the range-restricted statements below).  Dotted-quad IPv4 strings appear on
the Python API surface only through `addrconv.ipv4.text_to_bin/bin_to_text`,
a bijection between valid dotted quads and 4-byte strings; we model an
address directly as its four octets (`IPv4`).
-/

/-- The Python exception classes that the modelled code can raise.
`tooSmall` is `stream_parser.StreamParser.TooSmallException`, the error the
spec calls `TruncatedInput`; `structError` is `struct.error`; `assertError`
is an `AssertionError` from a bare `assert` (an uncaught panic);
`keyError`/`typeError`/`attributeError`/`valueError` are the builtin Python
exceptions of the same names.  `loopLimit` is an artifact of modelling
`while` loops by structural recursion on a fuel equal to the buffer length;
every loop iteration consumes at least one byte, so it is never returned. -/
inductive PyErr where
  | tooSmall
  | structError
  | assertError
  | keyError
  | typeError
  | attributeError
  | valueError
  | loopLimit
deriving DecidableEq, Repr

/-- An IPv4 address as its four octets (the image of a dotted quad under
`addrconv.ipv4.text_to_bin`). -/
structure IPv4 where
  o1 : Nat
  o2 : Nat
  o3 : Nat
  o4 : Nat
deriving DecidableEq, Repr

/-- All four octets are in byte range. -/
def validQuadB (x : IPv4) : Bool :=
  decide (x.o1 < 256) && decide (x.o2 < 256) && decide (x.o3 < 256) &&
    decide (x.o4 < 256)

/-- `struct.pack὚!H὚`: a 16-bit integer as two big-endian bytes. -/
def be16 (n : Nat) : List Nat := [n / 256 % 256, n % 256]

/-- `struct.pack὚!L὚` / `὚!I὚`: a 32-bit integer as four big-endian bytes. -/
def be32 (n : Nat) : List Nat :=
  [n / 16777216 % 256, n / 65536 % 256, n / 256 % 256, n % 256]

/-- `addrconv.ipv4.text_to_bin`: the four raw address bytes. -/
def quad4 (x : IPv4) : List Nat := [x.o1, x.o2, x.o3, x.o4]

/- Message-type constants, ldp.py lines 21-31. -/

def LDP_MSG_NOTIFICATION : Nat := 0x0001
def LDP_MSG_HELLO : Nat := 0x0100
def LDP_MSG_INIT : Nat := 0x0200
def LDP_MSG_KEEPALIVE : Nat := 0x0201
def LDP_MSG_ADDR : Nat := 0x0300
def LDP_MSG_ADDRWITHDRAW : Nat := 0x0301
def LDP_MSG_LABEL_MAPPING : Nat := 0x0400
def LDP_MSG_LABEL_REQUEST : Nat := 0x0401
def LDP_MSG_LABEL_WITHDRAW : Nat := 0x0402
def LDP_MSG_LABEL_RELEASE : Nat := 0x0403
def LDP_MSG_LABEL_ABORTREQ : Nat := 0x0404

/- TLV-type and FEC-type constants, ldp.py lines 33-43. -/

def LDP_TLV_COMMON_HELLO_PARAM : Nat := 0x0400
def LDP_TLV_IPV4_TRANSPORT_ADDRESS : Nat := 0x0401
def LDP_TLV_COMMON_SESSION_PARAMETERS : Nat := 0x0500
def LDP_TLV_ADDRESS_LIST : Nat := 0x0101
def LDP_TLV_FEC : Nat := 0x0100
def LDP_TLV_GENERIC_LABEL : Nat := 0x0200
def LDP_TLV_SIZE : Nat := 4
def LDP_FEC_PREFIX : Nat := 2
def LDP_FEC_HOST_ADDRESS : Nat := 3

/-- A FEC element.  Only the Prefix element (`PrefixFecElement`, tag 2) has a
registered class in `Fec._fec_parsers`.  `pfx` models the instance attribute
the source spells `self.prefix` (a dotted quad); `element_len` is the PreLen
byte. The class attribute `fec_type` is the constant `LDP_FEC_PREFIX` on both
the constructed and the parsed object, so it is not a field here. -/
structure PrefixFecElement where
  address_type : Nat
  element_len : Nat
  pfx : IPv4
deriving DecidableEq, Repr

/-- The TLV classes registered in `LDPMessage._tlv_parsers` (ldp.py).  Each
constructor carries the public instance attributes of the corresponding
class.  `len` is the `self.len` attribute: `none` on a freshly
keyword-constructed TLV (the attribute does not exist until `serialize` sets
it), `some n` once `serialize` or the parsing constructor has set it.
Structural equality of two TLVs is equality of these public attributes,
which is what the repository's own round-trip test compares (via
`str(StringifyMixin)`; underscore-private attributes are excluded). -/
inductive LDPTLV where
  | CommonHelloParameter (hold_time t_bit r_bit reserved : Nat) (len : Option Nat)
  | IPv4TransportAddress (addr : IPv4) (len : Option Nat)
  | AddressList (address_family : Nat) (address_list : List IPv4) (len : Option Nat)
  | Fec (fec_elements : List PrefixFecElement) (len : Option Nat)
  | GenericLabel (label : Nat) (len : Option Nat)
  | CommonSessionParameters (proto_ver keepalive_time a_bit d_bit reserved pvlim
      max_pdu_len : Nat) (receiver_lsr_id : IPv4) (receiver_label_space_id : Nat)
      (len : Option Nat)
deriving DecidableEq, Repr

/-- The `tlv_type` class attribute of each TLV class (set by
`LDPMessage.set_tlv_type`). -/
def tlvTypeOf : LDPTLV → Nat
  | .CommonHelloParameter _ _ _ _ _ => LDP_TLV_COMMON_HELLO_PARAM
  | .IPv4TransportAddress _ _ => LDP_TLV_IPV4_TRANSPORT_ADDRESS
  | .AddressList _ _ _ => LDP_TLV_ADDRESS_LIST
  | .Fec _ _ => LDP_TLV_FEC
  | .GenericLabel _ _ => LDP_TLV_GENERIC_LABEL
  | .CommonSessionParameters _ _ _ _ _ _ _ _ _ _ => LDP_TLV_COMMON_SESSION_PARAMETERS

/-- `CommonHelloParameter.__init__` keyword branch (ldp.py lines 546-550):
the T and R bits are stored shifted (`t_bit << 15`, `r_bit << 14`) and
`reserved` is their sum. -/
def CommonHelloParameter.mk_kwargs (hold_time t_bit r_bit : Nat) : LDPTLV :=
  .CommonHelloParameter hold_time (t_bit <<< 15) (r_bit <<< 14)
    ((t_bit <<< 15) + (r_bit <<< 14)) none

/-- `IPv4TransportAddress.__init__` keyword branch (ldp.py line 567). -/
def IPv4TransportAddress.mk_kwargs (addr : IPv4) : LDPTLV :=
  .IPv4TransportAddress addr none

/-- `Fec.__init__` keyword branch (ldp.py line 436). -/
def Fec.mk_kwargs (fec_elements : List PrefixFecElement) : LDPTLV :=
  .Fec fec_elements none

/-- `PrefixFecElement.__init__` keyword branch (ldp.py lines 483-485): the
three keyword arguments are stored unvalidated (in particular no check that
`element_len ≤ 32`). -/
def PrefixFecElement.mk_kwargs (address_type element_len : Nat) (pfx : IPv4) :
    PrefixFecElement :=
  { address_type := address_type, element_len := element_len, pfx := pfx }

/-- `LDPFecElement.serialize` + `PrefixFecElement.serialize` (ldp.py lines
197-198, 487-491): one tag byte, the address family, the PreLen byte, then
`text_to_bin(self.prefix)` — always all four address bytes, regardless of
`element_len`. -/
def PrefixFecElement.serialize (e : PrefixFecElement) : List Nat :=
  [LDP_FEC_PREFIX] ++ be16 e.address_type ++ [e.element_len] ++ quad4 e.pfx

/-- `LDPBasicTLV.serialize` (ldp.py lines 87-88): the 4-byte TLV header. -/
def LDPBasicTLV.serializeHdr (tlv_type tlv_len : Nat) : List Nat :=
  be16 tlv_type ++ be16 tlv_len

/-- The `serialize` method of each TLV class.  Every one of them builds the
value bytes, then overwrites `self.len` with the value length (discarding
any stale value), then prepends the `LDPBasicTLV` header.  Returns the
updated TLV object together with its bytes. -/
def serializeTLV : LDPTLV → LDPTLV × List Nat
  | .CommonHelloParameter hold_time t_bit r_bit reserved _ =>
    let tlv := be16 hold_time ++ be16 reserved
    (.CommonHelloParameter hold_time t_bit r_bit reserved (some tlv.length),
      LDPBasicTLV.serializeHdr LDP_TLV_COMMON_HELLO_PARAM tlv.length ++ tlv)
  | .IPv4TransportAddress addr _ =>
    let tlv := quad4 addr
    (.IPv4TransportAddress addr (some tlv.length),
      LDPBasicTLV.serializeHdr LDP_TLV_IPV4_TRANSPORT_ADDRESS tlv.length ++ tlv)
  | .AddressList address_family address_list _ =>
    let tlv := be16 address_family ++ (address_list.map quad4).flatten
    (.AddressList address_family address_list (some tlv.length),
      LDPBasicTLV.serializeHdr LDP_TLV_ADDRESS_LIST tlv.length ++ tlv)
  | .Fec fec_elements _ =>
    let tlv := (fec_elements.map PrefixFecElement.serialize).flatten
    (.Fec fec_elements (some tlv.length),
      LDPBasicTLV.serializeHdr LDP_TLV_FEC tlv.length ++ tlv)
  | .GenericLabel label _ =>
    let tlv := be32 label
    (.GenericLabel label (some tlv.length),
      LDPBasicTLV.serializeHdr LDP_TLV_GENERIC_LABEL tlv.length ++ tlv)
  | .CommonSessionParameters proto_ver keepalive_time a_bit d_bit reserved pvlim
      max_pdu_len receiver_lsr_id receiver_label_space_id _ =>
    let tlv := be16 proto_ver ++ be16 keepalive_time ++ [reserved] ++ [pvlim] ++
      be16 max_pdu_len ++ quad4 receiver_lsr_id ++ be16 receiver_label_space_id
    (.CommonSessionParameters proto_ver keepalive_time a_bit d_bit reserved pvlim
        max_pdu_len receiver_lsr_id receiver_label_space_id (some tlv.length),
      LDPBasicTLV.serializeHdr LDP_TLV_COMMON_SESSION_PARAMETERS tlv.length ++ tlv)

/-- `LDPMessage.serialize_tlvs` (ldp.py lines 277-282), returning the updated
TLV objects and the concatenated bytes. -/
def serializeTLVs : List LDPTLV → List LDPTLV × List Nat
  | [] => ([], [])
  | t :: ts =>
    ((serializeTLV t).1 :: (serializeTLVs ts).1,
      (serializeTLV t).2 ++ (serializeTLVs ts).2)

/-- An LDP message object with its PDU header flattened in (the
`include_header=True` shape built by `LDPMessage.__init__`): `type` is the
message-type code of the concrete class, `version`/`length`/`router_id`/
`label_space_id` are the `LDPHeader` attributes, and `msg_len`/`msg_id`/
`tlvs` are the message attributes.  `length` and `msg_len` are `none` when
the caller did not supply them (the constructors default them to `None`). -/
structure LDPMessage where
  type : Nat
  version : Nat
  length : Option Nat
  router_id : IPv4
  label_space_id : Nat
  msg_len : Option Nat
  msg_id : Nat
  tlvs : List LDPTLV
deriving DecidableEq, Repr

/-- The result of `LDPHeader.parser` (the `ldp_hdr` dict, ldp.py lines
113-128). -/
structure LDPHeaderR where
  version : Nat
  length : Nat
  router_id : IPv4
  label_space_id : Nat
deriving DecidableEq, Repr

/-- `LDPMessage.serialize` with `include_header=True` (ldp.py lines 264-275
and `LDPHeader.serialize` lines 130-134): serializes the TLVs, recomputes
`self.msg_len = 4 + len(tlv bytes)`, prepends the message header, sets
`self.header.length = len(msg_bin)` which `LDPHeader.serialize` then bumps
by `_HDR_LEN = 6`, and prepends the PDU header.  Returns the updated
message object together with the wire bytes. -/
def LDPMessage.serialize (m : LDPMessage) : LDPMessage × List Nat :=
  let st := serializeTLVs m.tlvs
  let new_msg_len := 4 + st.2.length
  let msg_bin := be16 m.type ++ be16 new_msg_len ++ be32 m.msg_id ++ st.2
  let hdr_length := msg_bin.length + 6
  ({ m with tlvs := st.1, msg_len := some new_msg_len, length := some hdr_length },
    be16 m.version ++ be16 hdr_length ++ quad4 m.router_id ++
      be16 m.label_space_id ++ msg_bin)

/-- `LDPHeader.parser` (ldp.py lines 113-128): an explicit length check that
raises `TooSmallException`, then `struct.unpack_from὚!HH4sH὚`. -/
def LDPHeader.parser (buf : List Nat) : Except PyErr (LDPHeaderR × List Nat) :=
  if buf.length < 10 then .error .tooSmall
  else
    match buf with
    | v1 :: v0 :: l1 :: l0 :: r1 :: r2 :: r3 :: r4 :: s1 :: s0 :: rest =>
      .ok ({ version := v1 * 256 + v0, length := l1 * 256 + l0,
             router_id := ⟨r1, r2, r3, r4⟩, label_space_id := s1 * 256 + s0 }, rest)
    | _ => .error .tooSmall  -- not reached: the length check already failed

/-- `LDPBasicTLV.get_type` (ldp.py lines 77-80): `struct.unpack὚!H὚` of the
first two bytes; `struct.error` when fewer than two bytes remain. -/
def LDPBasicTLV.get_type (buf : List Nat) : Except PyErr Nat :=
  match buf with
  | t1 :: t0 :: _ => .ok (t1 * 256 + t0)
  | _ => .error .structError

/-- The keys of the `LDPMessage._tlv_parsers` registry: exactly the six TLV
classes decorated with `@LDPMessage.set_tlv_type` in ldp.py. -/
def tlvParsersKeys : List Nat :=
  [LDP_TLV_ADDRESS_LIST, LDP_TLV_FEC, LDP_TLV_GENERIC_LABEL,
   LDP_TLV_COMMON_HELLO_PARAM, LDP_TLV_IPV4_TRANSPORT_ADDRESS,
   LDP_TLV_COMMON_SESSION_PARAMETERS]

/-- `pad` (ldp.py lines 457-459) without its assertion (the call sites check
`len(bin) ≤ len_` first, mirroring the `assert`): right-pad with zero bytes
to the requested length. -/
def pad4 (l : List Nat) : List Nat := l ++ List.replicate (4 - l.length) 0

/-- One iteration of the `Fec.__init__` element loop (ldp.py lines 429-434)
together with `LDPFecElement.__init__` / `PrefixFecElement.__init__` (lines
179-184, 473-481), returning the parsed element and the `fec_len` the loop
advances by.  `LDPFecElement.get_type` reads the tag byte; the dispatch
`Fec.get_fec_type` indexes `_fec_parsers`, whose only key is
`LDP_FEC_PREFIX` (2), so any other tag raises `KeyError`.  The element
constructor unpacks `὚!HB%ds὚` across the whole remaining value (`%d` is
`len(info) - 3`, a `struct.error` if negative), pads the prefix bytes to 4
(`pad`'s `assert` fails when more than 4 remain), and sets
`_len = len(info)` — so `fec_len = 1 + len(info)`, the entire rest. -/
def parseOneFecElem (rest : List Nat) : Except PyErr (PrefixFecElement × Nat) :=
  match rest with
  | fec_type :: info =>
    if fec_type = LDP_FEC_PREFIX then
      match info with
      | a1 :: a0 :: element_len :: pfxBytes =>
        if pfxBytes.length ≤ 4 then
          match pad4 pfxBytes with
          | [p1, p2, p3, p4] =>
            .ok ({ address_type := a1 * 256 + a0, element_len := element_len,
                   pfx := ⟨p1, p2, p3, p4⟩ }, 1 + info.length)
          | _ => .error .valueError  -- not reached: pad yields exactly four bytes
        else .error .assertError     -- `pad`: assert len(bin) <= 4
      | _ => .error .structError     -- negative count in the ὚%ds὚ format
    else .error .keyError            -- only LDP_FEC_PREFIX is registered
  | [] => .error .structError        -- not reached: the loop guard is `while rest:`

/-- The `while rest:` loop of `Fec.__init__` (ldp.py lines 429-434), with a
structural fuel equal to the buffer length; each iteration consumes
`fec_len ≥ 1` bytes, so the fuel never runs out. -/
def parseFecElemsFuel (fuel : Nat) (rest : List Nat) :
    Except PyErr (List PrefixFecElement) :=
  match rest with
  | [] => .ok []
  | b :: bs =>
    match fuel with
    | 0 => .error .loopLimit
    | fuel + 1 => do
      let (fec, fec_len) ← parseOneFecElem (b :: bs)
      let elems ← parseFecElemsFuel fuel ((b :: bs).drop fec_len)
      .ok (fec :: elems)

/-- The FEC-element loop on a TLV value. -/
def parseFecElems (rest : List Nat) : Except PyErr (List PrefixFecElement) :=
  parseFecElemsFuel rest.length rest

/-- `AddressList.__init__` address splitting (ldp.py lines 376-382): the
addresses are cut into 4-byte chunks; a trailing chunk of fewer than four
bytes reaches `addrconv.ipv4.bin_to_text` (not part of these sources) with a
non-address argument, modelled as an error. -/
def chunkAddrs : List Nat → Except PyErr (List IPv4)
  | [] => .ok []
  | a :: b :: c :: d :: rest => do
    let l ← chunkAddrs rest
    .ok (⟨a, b, c, d⟩ :: l)
  | _ => .error .valueError

/-- The value-parsing part of each registered TLV class's `__init__` (the
code that runs after `LDPBasicTLV.__init__` set `self.len = tlv_length` and
`self._tlv_info` to exactly `tlv_length` bytes).  Each class re-unpacks
`_tlv_info` with an exact-size `struct` format, so a declared length that
does not match the format raises `struct.error`. -/
def parseTLVvalue (tlv_type tlv_length : Nat) (info : List Nat) :
    Except PyErr LDPTLV :=
  if tlv_type = LDP_TLV_COMMON_HELLO_PARAM then
    -- ldp.py lines 538-545; note the masks 0x80/0x40 against a 16-bit word
    match info with
    | [h1, h0, r1, r0] =>
      let hold_time := h1 * 256 + h0
      let reservedW := r1 * 256 + r0
      .ok (.CommonHelloParameter hold_time ((reservedW &&& 0x80) >>> 15)
        ((reservedW &&& 0x40) >>> 14) (reservedW &&& 0xFF3F) (some tlv_length))
    | _ => .error .structError
  else if tlv_type = LDP_TLV_IPV4_TRANSPORT_ADDRESS then
    -- ldp.py lines 560-565
    match info with
    | [a, b, c, d] => .ok (.IPv4TransportAddress ⟨a, b, c, d⟩ (some tlv_length))
    | _ => .error .structError
  else if tlv_type = LDP_TLV_ADDRESS_LIST then
    -- ldp.py lines 369-382
    match info with
    | f1 :: f0 :: addrsBytes => do
      let address_list ← chunkAddrs addrsBytes
      .ok (.AddressList (f1 * 256 + f0) address_list (some tlv_length))
    | _ => .error .structError
  else if tlv_type = LDP_TLV_FEC then
    -- ldp.py lines 424-434
    do
      let fec_elements ← parseFecElems info
      .ok (.Fec fec_elements (some tlv_length))
  else if tlv_type = LDP_TLV_GENERIC_LABEL then
    -- ldp.py lines 508-511
    match info with
    | [x3, x2, x1, x0] =>
      .ok (.GenericLabel (((x3 * 256 + x2) * 256 + x1) * 256 + x0) (some tlv_length))
    | _ => .error .structError
  else if tlv_type = LDP_TLV_COMMON_SESSION_PARAMETERS then
    -- ldp.py lines 598-608; `reserved` keeps its full byte minus the two bits
    match info with
    | [p1, p0, k1, k0, res, pvlim, m1, m0, a, b, c, d, s1, s0] =>
      let a_bit := (res &&& 0x80) >>> 7
      let d_bit := (res &&& 0x40) >>> 6
      .ok (.CommonSessionParameters (p1 * 256 + p0) (k1 * 256 + k0) a_bit d_bit
        (res - (a_bit + d_bit)) pvlim (m1 * 256 + m0) ⟨a, b, c, d⟩
        (s1 * 256 + s0) (some tlv_length))
    | _ => .error .structError
  else .error .keyError  -- not reached: the dispatch already checked the key

/-- One iteration of the TLV loop in `LDPMessage.parser` (ldp.py lines
254-259): `LDPBasicTLV.get_type`, then the `_tlv_parsers` dispatch
(`KeyError` for an unregistered type code), then `LDPBasicTLV.__init__`
(ldp.py lines 67-75: `struct.unpack὚!HH὚` of the first four bytes, the
`assert len(buf) >= tlv_length + LDP_TLV_SIZE`, and the slice
`_tlv_info = buf[4:][:tlv_length]`), then the class-specific value parse.
Returns the TLV and the loop offset `LDP_TLV_SIZE + tlv.len`. -/
def parseOneTLV (tlv_bin : List Nat) : Except PyErr (LDPTLV × Nat) := do
  let tlv_type ← LDPBasicTLV.get_type tlv_bin
  if tlv_type ∈ tlvParsersKeys then
    match tlv_bin with
    | _t1 :: _t0 :: l1 :: l0 :: rest =>
      let tlv_length := l1 * 256 + l0
      if tlv_length + LDP_TLV_SIZE ≤ tlv_bin.length then
        do
          let tlv ← parseTLVvalue tlv_type tlv_length (rest.take tlv_length)
          .ok (tlv, LDP_TLV_SIZE + tlv_length)
      else .error .assertError  -- the bare `assert` in LDPBasicTLV.__init__
    | _ => .error .structError  -- unpack὚!HH὚ of fewer than four bytes
  else .error .keyError

/-- The `while tlv_bin:` loop of `LDPMessage.parser` (ldp.py lines 253-259),
with a structural fuel equal to the buffer length; each iteration consumes
`LDP_TLV_SIZE + tlv.len ≥ 4` bytes, so the fuel never runs out. -/
def parseTLVsFuel (fuel : Nat) (tlv_bin : List Nat) :
    Except PyErr (List LDPTLV) :=
  match tlv_bin with
  | [] => .ok []
  | b :: bs =>
    match fuel with
    | 0 => .error .loopLimit
    | fuel + 1 => do
      let (tlv, offset) ← parseOneTLV (b :: bs)
      let tlvs ← parseTLVsFuel fuel ((b :: bs).drop offset)
      .ok (tlv :: tlvs)

/-- The TLV loop on the message body. -/
def parseTLVs (tlv_bin : List Nat) : Except PyErr (List LDPTLV) :=
  parseTLVsFuel tlv_bin.length tlv_bin

/-- The message types registered in `LDPMessage._TYPES` (the classes
decorated with `@LDPMessage.register_type` in ldp.py): LDPHello, LDPInit,
LDPNotification, LDPKeepAlive, LDPAddress, LDPLabelMapping. -/
def registeredMsgTypes : List Nat :=
  [LDP_MSG_HELLO, LDP_MSG_INIT, LDP_MSG_NOTIFICATION, LDP_MSG_KEEPALIVE,
   LDP_MSG_ADDR, LDP_MSG_LABEL_MAPPING]

/-- The registered message types whose class defines a keyword `__init__`
forwarding `router_id`, `msg_id`, `length`, `msg_len` and `tlvs` (all of the
registered classes except `LDPNotification`, which defines no `__init__`). -/
def msgTypesWithInit : List Nat :=
  [LDP_MSG_HELLO, LDP_MSG_INIT, LDP_MSG_KEEPALIVE, LDP_MSG_ADDR,
   LDP_MSG_LABEL_MAPPING]

/-- The final `subcls(msg_len=..., msg_id=..., tlvs=..., **ldp_hdr)` call of
`LDPMessage.parser` (ldp.py lines 261-262).

* For an unregistered type code, `_lookup_type` returned
  `_UNKNOWN_TYPE = None` (no class was ever registered as unknown handler),
  and calling `None(...)` raises `TypeError`.
* For `LDPNotification`, the inherited `LDPMessage.__init__` requires the
  positional `type_` argument that the call does not pass: `TypeError`.
* The other five classes forward `router_id`, `msg_id`, `length`, `msg_len`
  and `tlvs` to `LDPMessage.__init__` but drop the `version` and
  `label_space_id` keywords, so the rebuilt header carries the defaults
  `version = 1` and `label_space_id = 0` whatever was on the wire. -/
def mkParsedMessage (type_ : Nat) (hdr : LDPHeaderR) (msg_len msg_id : Nat)
    (tlvs : List LDPTLV) : Except PyErr LDPMessage :=
  if type_ ∈ msgTypesWithInit then
    .ok { type := type_, version := 1, length := some hdr.length,
          router_id := hdr.router_id, label_space_id := 0,
          msg_len := some msg_len, msg_id := msg_id, tlvs := tlvs }
  else .error .typeError

/-- `LDPMessage.parser` with `include_header=True` (ldp.py lines 238-262):
parse the PDU header, `struct.unpack_from὚!HHL὚` the message header
(`struct.error` when fewer than 8 bytes remain — there is no TooSmall guard
here), check `len(rest) < msg_len` (raising `TooSmallException`; note the
check does not account for the four type/length bytes), slice the TLV bytes
`rest[8 : msg_len + 4]`, run the TLV loop, and build the message object. -/
def LDPMessage.parser (buf : List Nat) : Except PyErr (LDPMessage × List Nat) := do
  let (ldp_hdr, rest) ← LDPHeader.parser buf
  -- line 245: `print len(rest)` (no effect on the result)
  match rest with
  | t1 :: t0 :: m1 :: m0 :: i3 :: i2 :: i1 :: i0 :: _ =>
    let type_ := t1 * 256 + t0
    let msg_len := m1 * 256 + m0
    let msg_id := ((i3 * 256 + i2) * 256 + i1) * 256 + i0
    if rest.length < msg_len then .error .tooSmall
    else do
      let eotlv := msg_len + 4  -- _MSG_ID_LEN
      let tlv_bin := (rest.drop 8).take (eotlv - 8)
      let tlvs ← parseTLVs tlv_bin
      let msg ← mkParsedMessage type_ ldp_hdr msg_len msg_id tlvs
      .ok (msg, rest.drop eotlv)
  | _ => .error .structError

deriving instance DecidableEq for Except

/-- `LDPMessage.retrive_tlv` (ldp.py lines 302-307): the first TLV of the
message whose class `tlv_type` equals the requested code, else `None`. -/
def LDPMessage.retrive_tlv (tlv_type : Nat) (msg : LDPMessage) : Option LDPTLV :=
  msg.tlvs.find? (fun tlv => tlvTypeOf tlv == tlv_type)

/-- `ldp_util.from_inet_ptoi` (ldp_util.py lines 6-17) on a valid dotted
quad: `inet_pton` followed by the hex reading of the four bytes, i.e. the
32-bit big-endian integer of the address. -/
def from_inet_ptoi (x : IPv4) : Nat :=
  ((x.o1 * 256 + x.o2) * 256 + x.o3) * 256 + x.o4

/-- The `is_active` expression of `LDPManager.hello_received` (manager.py
lines 65-66): the local side takes the active role exactly when
`from_inet_ptoi(peer_router_id) < from_inet_ptoi(config.router_id)`. -/
def is_active_role (local_router_id peer_router_id : IPv4) : Bool :=
  from_inet_ptoi peer_router_id < from_inet_ptoi local_router_id

/-- A value of `self.peers[interface]` in `LDPManager`: the attributes the
`Peer` call at manager.py line 63 would store.  (Values of this type are
only ever supplied in hypotheses: the call itself raises, see
`LDPManager.hello_received`.) -/
structure PeerEntry where
  router_id : IPv4
  trans_addr : Option LDPTLV
deriving DecidableEq, Repr

/-- The `hub.spawn(self._session_thread, is_active, peer)` side effect of
`LDPManager.hello_received` (manager.py line 67). -/
inductive ManagerAction where
  | spawnSession (is_active : Bool) (peer : PeerEntry)
deriving DecidableEq, Repr

/-- `LDPManager.hello_received` (manager.py lines 51-67).  `self.peers` is a
dict keyed by the receiving interface (line 29: `self.peers = {} #key
interface`), modelled as an association list; interfaces are opaque ids.

* If the interface already has a peer, the handler only `pass`es (the
  `#TODO: peer hold` branch): the registry is unchanged and nothing is
  spawned, whatever the datagram contains.
* Otherwise the datagram is parsed by `LDPMessage.parser` with no
  surrounding `try`: a decode error propagates out of the handler.
* On a successful parse, the router id and the IPv4TransportAddress TLV are
  extracted, and then `Peer(self, peer_router_id, trans_addr, self.config)`
  (line 63) passes four positional arguments to a three-parameter
  constructor (`peer.py` line 114: `def __init__(self, app, router_id,
  trans_addr)`), raising `TypeError` before the registry insert at line 64
  or the spawn at line 67 can run. -/
def LDPManager.hello_received (peers : List (Nat × PeerEntry)) (interface : Nat)
    (packet : List Nat) :
    Except PyErr (List (Nat × PeerEntry) × List ManagerAction) :=
  match peers.lookup interface with
  | some _ => .ok (peers, [])
  | none =>
    match LDPMessage.parser packet with
    | .error e => .error e
    | .ok (msg, _rest) =>
      let _peer_router_id := msg.router_id
      let _trans_addr := LDPMessage.retrive_tlv LDP_TLV_IPV4_TRANSPORT_ADDRESS msg
      .error .typeError

/-- Modelled from the spec: the `LDP_STATE_*` constants that `peer.py` reads
from `ryu.services.protocols.ldp.event`.  That module is not among these
sources (the `event.py` that is present defines no state constants), so the
states are taken from the spec's canonical machine (§4.5): NonExistent,
Initial, OpenSent, OpenReceived, Operational — plus the `Present` name that
only the passive state map mentions.  The spec's `Closed` is deliberately
not a value: no `LDP_STATE_CLOSED`-like name is referenced anywhere in
`peer.py`. -/
inductive SessionState where
  | nonExistent
  | initial
  | openSent
  | openRec
  | operational
  | present
deriving DecidableEq, Repr

def LDP_STATE_NON_EXISTENT : SessionState := .nonExistent
def LDP_STATE_INITIAL : SessionState := .initial
def LDP_STATE_OPEN_SENT : SessionState := .openSent
def LDP_STATE_OPEN_REC : SessionState := .openRec
def LDP_STATE_OPERATIONAL : SessionState := .operational
def LDP_STATE_PRESENT : SessionState := .present

/-- The `LDPState` subclasses of peer.py (lines 34-96), one per class. -/
inductive LDPStateKlass where
  | LDPStateNonExistent
  | LDPActiveStateInitial
  | LDPPassiveStateInitial
  | LDPStateOpenSent
  | LDPStateOpenRec
  | LDPStateOperational
deriving DecidableEq, Repr

/-- The `new_state()` method of each `LDPState` subclass.  Note that
`LDPStateOperational.new_state` (peer.py lines 92-93) returns NonExistent —
there is no Closed state anywhere in the machine. -/
def LDPState.new_state : LDPStateKlass → SessionState
  | .LDPStateNonExistent => LDP_STATE_INITIAL
  | .LDPActiveStateInitial => LDP_STATE_OPEN_SENT
  | .LDPPassiveStateInitial => LDP_STATE_OPEN_REC
  | .LDPStateOpenSent => LDP_STATE_OPERATIONAL
  | .LDPStateOpenRec => LDP_STATE_OPERATIONAL
  | .LDPStateOperational => LDP_STATE_NON_EXISTENT

/-- The calls made by the `action()` method of each `LDPState` subclass. -/
inductive PeerCall where
  | send_init
  | send_keepalive
  | start_keepalive
deriving DecidableEq, Repr

/-- The `action()` bodies (peer.py lines 35-96).  None of them sends a
Notification. -/
def LDPState.action : LDPStateKlass → List PeerCall
  | .LDPStateNonExistent => []
  | .LDPActiveStateInitial => [.send_init]
  | .LDPPassiveStateInitial => []
  | .LDPStateOpenSent => [.send_keepalive, .start_keepalive]
  | .LDPStateOpenRec => [.send_init, .send_keepalive, .start_keepalive]
  | .LDPStateOperational => []

/-- `Peer._ACTIVE_STATE_MAP` (peer.py lines 99-105). -/
def Peer.ACTIVE_STATE_MAP : List (SessionState × LDPStateKlass) :=
  [(LDP_STATE_NON_EXISTENT, .LDPStateNonExistent),
   (LDP_STATE_INITIAL, .LDPActiveStateInitial),
   (LDP_STATE_OPEN_SENT, .LDPStateOpenSent),
   (LDP_STATE_OPEN_REC, .LDPStateOpenRec),
   (LDP_STATE_OPERATIONAL, .LDPStateOperational)]

/-- `Peer._PASSIVE_STATE_MAP` (peer.py lines 106-112).  Its third key is
spelled `LDP_STATE_INITAL` (sic) in the source; with the event module
missing from these sources the two spellings are modelled as the same
Initial state (the reading most favourable to the code). -/
def Peer.PASSIVE_STATE_MAP : List (SessionState × LDPStateKlass) :=
  [(LDP_STATE_NON_EXISTENT, .LDPStateNonExistent),
   (LDP_STATE_PRESENT, .LDPStateNonExistent),
   (LDP_STATE_INITIAL, .LDPPassiveStateInitial),
   (LDP_STATE_OPEN_REC, .LDPStateOpenRec),
   (LDP_STATE_OPERATIONAL, .LDPStateOperational)]

/-- The attributes of a `Peer` instance that the message-handling code reads
or writes.  `Peer.__init__` (peer.py lines 114-122) initialises `_state`,
`_state_map = {}` and `_state_instance`, but never `self.state` or
`self.state_impl` — those spellings are only ever written inside
`state_change` (lines 140-141), which itself reads `self.state` first.  A
field holds `none` when the attribute does not exist on the instance, so
reading it raises `AttributeError`. -/
structure PeerObj where
  state : Option SessionState := none
  state_impl : Option LDPStateKlass := none
  state_map : List (SessionState × LDPStateKlass) := []
deriving DecidableEq, Repr

/-- Reading a possibly-missing Python attribute. -/
def readAttr {α : Type} (a : Option α) : Except PyErr α :=
  match a with
  | some v => .ok v
  | none => .error .attributeError

/-- A `dict[key]` lookup: `KeyError` when the key is absent. -/
def pyDictGet {α β : Type} [BEq α] (d : List (α × β)) (k : α) : Except PyErr β :=
  match d.lookup k with
  | some v => .ok v
  | none => .error .keyError

/-- `ldp.LDP_MSG_OPERATIONAL`, read by `Peer._handle_msg` at peer.py line
209: ldp.py defines no such name (its message constants are the eleven
`LDP_MSG_*` definitions above), so the attribute access raises
`AttributeError`. -/
def ldpModule_LDP_MSG_OPERATIONAL : Except PyErr Nat := .error .attributeError

/-- `ldp.LDP_MSG_OPEN_REC`, read at peer.py line 211: also undefined in
ldp.py. -/
def ldpModule_LDP_MSG_OPEN_REC : Except PyErr Nat := .error .attributeError

/-- `ldp.LDP_MSG_SHUTDOWN`, read at peer.py line 214: also undefined in
ldp.py. -/
def ldpModule_LDP_MSG_SHUTDOWN : Except PyErr Nat := .error .attributeError

/-- `Peer.state_change` (peer.py lines 136-146).  Line 137 compares
`self.state` — an attribute that `__init__` never sets (it sets `_state`),
so on a peer that has not already crashed through this method the read
raises `AttributeError`.  Were the comparison to succeed, line 140 would set
`self.state`, line 141 would index `self._state_map` (`KeyError` when the
state is not a key — on a fresh peer the map is `{}`), and line 142 would
build `EventLDPStateChanged(self.name, self.monitor_name, ...)` — `Peer`
instances have no `name`, `monitor_name`, `interface` or `config`
attributes, so that line raises `AttributeError` as well. -/
def Peer.state_change (p : PeerObj) (new_state : SessionState) :
    Except PyErr PeerObj := do
  let cur ← readAttr p.state
  if cur = new_state then return p
  let p1 : PeerObj := { p with state := some new_state }
  let impl ← pyDictGet p1.state_map new_state
  let _p2 : PeerObj := { p1 with state_impl := some impl }
  .error .attributeError

/-- `Peer.conn_handle` (peer.py lines 124-131).  Line 126 calls
`self._recv_loop()` — the blocking receive loop — *before* installing the
state map and entering Initial, so while the connection is alive lines
127-131 never run at all; when the loop eventually returns, the state map is
installed and `state_change(LDP_STATE_INITIAL)` is attempted. -/
def Peer.conn_handle (p : PeerObj) (is_active : Bool) : Except PyErr PeerObj :=
  let p1 : PeerObj :=
    { p with state_map := if is_active then Peer.ACTIVE_STATE_MAP
                          else Peer.PASSIVE_STATE_MAP }
  Peer.state_change p1 LDP_STATE_INITIAL

/-- `Peer._handle_msg` (peer.py lines 199-226), step by step:

* `msg_type == ldp.LDP_MSG_INIT` (line 204): the constant exists.  Line 205
  reads `self.state` (AttributeError when unset); either way the branch body
  is only a TODO `pass`, `state_change` stays `True`, line 222 reads
  `self.state_impl` (AttributeError when unset) and calls its `new_state()`,
  and line 223 calls `self.change_state(...)` — `Peer` defines
  `state_change`, not `change_state`, so the call raises `AttributeError`.
* `msg_type == ldp.LDP_MSG_KEEPALIVE` (line 208): line 209 evaluates
  `self.state == ldp.LDP_MSG_OPERATIONAL` — the left operand may already
  raise; otherwise the right operand is an undefined module attribute and
  raises `AttributeError`.  (Lines 210-213, which would clear `state_change`
  or TODO-notify, are unreachable.)
* any other type: line 214 evaluates `msg_type == ldp.LDP_MSG_SHUTDOWN`,
  an undefined module attribute: `AttributeError`.

Consequently every call raises, whatever the peer's state. -/
def Peer.handle_msg (p : PeerObj) (msg_type : Nat) : Except PyErr PeerObj := do
  if msg_type = LDP_MSG_INIT then
    let _s ← readAttr p.state
    -- `if self.state != LDP_STATE_INITIAL:` — both outcomes only `pass`
    let impl ← readAttr p.state_impl
    let _new_state := LDPState.new_state impl
    .error .attributeError  -- line 223: self.change_state does not exist
  else if msg_type = LDP_MSG_KEEPALIVE then
    let _s ← readAttr p.state
    let _op ← ldpModule_LDP_MSG_OPERATIONAL
    .error .attributeError  -- not reached: the previous line already raised
  else
    let _sd ← ldpModule_LDP_MSG_SHUTDOWN
    .error .attributeError  -- not reached: the previous line already raised

/-- The FEC-element fields produced by `PrefixFecElement.mk_kwargs` with
in-range arguments: any byte is accepted as `element_len` (the code never
checks it against 32). -/
def validFecElementB (e : PrefixFecElement) : Bool :=
  decide (e.address_type < 65536) && decide (e.element_len < 256) &&
    validQuadB e.pfx

/-- The domain on which each TLV class round-trips through its own
`serialize` and the parsing constructor:

* `CommonHelloParameter` with the T and R bits clear (`mk_kwargs ht 0 0`):
  the decoder applies the byte masks `0x80`/`0x40` to a 16-bit word and the
  keyword constructor stores the bits shifted, so set bits do not survive;
* `IPv4TransportAddress` with a valid quad;
* `AddressList` with in-range family and few enough addresses for the
  16-bit length field;
* `Fec` with exactly one element: the element decoder always consumes the
  whole remaining value (`_len = len(info)`), so only single-element FEC
  TLVs decode to what was encoded;
* `GenericLabel` with a 32-bit label;
* `CommonSessionParameters` with the A and D bits clear and `reserved = 0`,
  for the same shifted-storage reason as the Hello bits. -/
def validTLVb : LDPTLV → Bool
  | .CommonHelloParameter hold_time t_bit r_bit reserved _ =>
    decide (hold_time < 65536) && (t_bit == 0) && (r_bit == 0) && (reserved == 0)
  | .IPv4TransportAddress addr _ => validQuadB addr
  | .AddressList address_family address_list _ =>
    decide (address_family < 65536) &&
      decide (2 + 4 * address_list.length < 65536) &&
      address_list.all validQuadB
  | .Fec fec_elements _ =>
    match fec_elements with
    | [e] => validFecElementB e
    | _ => false
  | .GenericLabel label _ => decide (label < 4294967296)
  | .CommonSessionParameters proto_ver keepalive_time a_bit d_bit reserved pvlim
      max_pdu_len receiver_lsr_id receiver_label_space_id _ =>
    decide (proto_ver < 65536) && decide (keepalive_time < 65536) &&
      (a_bit == 0) && (d_bit == 0) && (reserved == 0) && decide (pvlim < 256) &&
      decide (max_pdu_len < 65536) && validQuadB receiver_lsr_id &&
      decide (receiver_label_space_id < 65536)

/-- The message domain on which `LDPMessage.parser` inverts
`LDPMessage.serialize`: a registered type with a forwarding constructor
(every registered type except Notification), header `version = 1` and
`label_space_id = 0` (the parse-side constructors drop both keywords), a
32-bit message id, TLVs in the per-class round-trip domain, and a total TLV
size that fits the 16-bit PDU length field. -/
def validMessageB (m : LDPMessage) : Bool :=
  decide (m.type ∈ msgTypesWithInit) && (m.version == 1) &&
    (m.label_space_id == 0) && validQuadB m.router_id &&
    decide (m.msg_id < 4294967296) && m.tlvs.all validTLVb &&
    decide ((serializeTLVs m.tlvs).2.length + 14 < 65536)

/-- The Hello message of the repository's own round-trip test
(`ryu/tests/unit/packet/test_ldp.py`) and the spec's Hello scenario:
`CommonHelloParameter(hold_time=15, t_bit=0, r_bit=0)`,
`IPv4TransportAddress(addr='1.1.1.1')`, router id `1.1.1.1`, msg id 0. -/
def helloCanonical : LDPMessage :=
  { type := LDP_MSG_HELLO, version := 1, length := none,
    router_id := ⟨1, 1, 1, 1⟩, label_space_id := 0, msg_len := none,
    msg_id := 0,
    tlvs := [CommonHelloParameter.mk_kwargs 15 0 0,
             IPv4TransportAddress.mk_kwargs ⟨1, 1, 1, 1⟩] }

/-- The canonical Hello's 34 encoded bytes. -/
def helloCanonicalBytes : List Nat := (LDPMessage.serialize helloCanonical).2

/-- The canonical Hello with the hello parameter's T bit set
(`CommonHelloParameter(hold_time=15, t_bit=1, r_bit=0)`) — a field value
within its valid one-bit range. -/
def helloT1 : LDPMessage :=
  { helloCanonical with tlvs := [CommonHelloParameter.mk_kwargs 15 1 0] }

/-- A PDU carrying one Hello whose body holds one recognized TLV
(CommonHelloParameter) followed by one TLV of the unregistered type code
0x0999 with four payload bytes. -/
def unknownTLVMessageBytes : List Nat :=
  [0, 1, 0, 24, 1, 1, 1, 1, 0, 0] ++ [1, 0, 0, 20, 0, 0, 0, 0] ++
    [4, 0, 0, 4, 0, 15, 0, 0] ++ [9, 153, 0, 4, 1, 2, 3, 4]

/-- A serialized FEC TLV whose value is empty (zero FEC elements): type
0x0100, length 0 — exactly what `Fec(fec_elements=[]).serialize()`
produces. -/
def emptyFecTLVBytes : List Nat := [1, 0, 0, 0]

/-- A registry in which interface 0 already has a peer with router id
1.1.1.1. -/
def peersWithOne : List (Nat × PeerEntry) :=
  [(0, { router_id := ⟨1, 1, 1, 1⟩, trans_addr := none })]

/-- A well-formed Hello datagram from router id 2.2.2.2 (a different router
id than the one registered in `peersWithOne`). -/
def helloFromOther : List Nat :=
  (LDPMessage.serialize
    { helloCanonical with router_id := ⟨2, 2, 2, 2⟩ }).2

theorem recompose_be16 (n : Nat) (h : n < 65536) :
    n / 256 % 256 * 256 + n % 256 = n := by omega

theorem parseOneTLV_generic (tc : Nat) (payload rest : List Nat)
    (htc : tc ∈ tlvParsersKeys) (htc16 : tc < 65536)
    (hlen : payload.length < 65536) :
    parseOneTLV ((LDPBasicTLV.serializeHdr tc payload.length ++ payload) ++ rest) =
      (parseTLVvalue tc payload.length payload).map
        (fun tlv => (tlv, 4 + payload.length)) := by
  simp only [LDPBasicTLV.serializeHdr, be16, List.cons_append, List.nil_append,
    List.append_assoc]
  simp only [parseOneTLV, LDPBasicTLV.get_type, bind, Except.bind,
    recompose_be16 tc htc16, recompose_be16 payload.length hlen, LDP_TLV_SIZE]
  rw [if_pos htc, List.take_left' rfl]
  simp only [List.length_cons, List.length_append]
  rw [if_pos (by omega)]
  cases parseTLVvalue tc payload.length payload <;> simp [Except.map]

theorem chunkAddrs_flatten (lst : List IPv4) :
    chunkAddrs ((lst.map quad4).flatten) = .ok lst := by
  induction lst with
  | nil => rfl
  | cons q rest ih => simp [quad4, chunkAddrs, ih, bind, Except.bind]

theorem flatten_quad4_length (lst : List IPv4) :
    ((lst.map quad4).flatten).length = 4 * lst.length := by
  induction lst with
  | nil => rfl
  | cons q rest ih => simp [quad4, ih]; omega

theorem parseOneTLV_al (af : Nat) (lst : List IPv4) (olen : Option Nat)
    (haf : af < 65536) (hn : 2 + 4 * lst.length < 65536) (rest : List Nat) :
    parseOneTLV ((serializeTLV (.AddressList af lst olen)).2 ++ rest) =
      .ok ((serializeTLV (.AddressList af lst olen)).1,
        (serializeTLV (.AddressList af lst olen)).2.length) := by
  have hfl := flatten_quad4_length lst
  have hlen : (be16 af ++ (lst.map quad4).flatten).length < 65536 := by
    simp only [List.length_append, hfl, be16, List.length_cons, List.length_nil]
    omega
  have hg := parseOneTLV_generic LDP_TLV_ADDRESS_LIST
    (be16 af ++ (lst.map quad4).flatten) rest (by simp [tlvParsersKeys])
    (by norm_num [LDP_TLV_ADDRESS_LIST]) hlen
  simp only [serializeTLV]
  rw [hg]
  simp [parseTLVvalue, LDP_TLV_ADDRESS_LIST, LDP_TLV_COMMON_HELLO_PARAM,
    LDP_TLV_IPV4_TRANSPORT_ADDRESS, be16, chunkAddrs_flatten,
    recompose_be16 af haf, bind, Except.bind, Except.map, LDPBasicTLV.serializeHdr]
  omega

theorem recompose_be32 (n : Nat) (h : n < 4294967296) :
    ((n / 16777216 % 256 * 256 + n / 65536 % 256) * 256 + n / 256 % 256) * 256 +
      n % 256 = n := by omega

theorem parseOneTLV_chp (ht : Nat) (olen : Option Nat) (h : ht < 65536)
    (rest : List Nat) :
    parseOneTLV ((serializeTLV (.CommonHelloParameter ht 0 0 0 olen)).2 ++ rest) =
      .ok ((serializeTLV (.CommonHelloParameter ht 0 0 0 olen)).1,
        (serializeTLV (.CommonHelloParameter ht 0 0 0 olen)).2.length) := by
  simp [serializeTLV, LDPBasicTLV.serializeHdr, be16, parseOneTLV,
    LDPBasicTLV.get_type, tlvParsersKeys, LDP_TLV_COMMON_HELLO_PARAM,
    LDP_TLV_IPV4_TRANSPORT_ADDRESS, LDP_TLV_COMMON_SESSION_PARAMETERS,
    LDP_TLV_ADDRESS_LIST, LDP_TLV_FEC, LDP_TLV_GENERIC_LABEL, LDP_TLV_SIZE,
    parseTLVvalue, recompose_be16 ht h, bind, Except.bind]

theorem parseOneTLV_ipv4 (addr : IPv4) (olen : Option Nat) (rest : List Nat) :
    parseOneTLV ((serializeTLV (.IPv4TransportAddress addr olen)).2 ++ rest) =
      .ok ((serializeTLV (.IPv4TransportAddress addr olen)).1,
        (serializeTLV (.IPv4TransportAddress addr olen)).2.length) := by
  simp [serializeTLV, LDPBasicTLV.serializeHdr, be16, quad4, parseOneTLV,
    LDPBasicTLV.get_type, tlvParsersKeys, LDP_TLV_COMMON_HELLO_PARAM,
    LDP_TLV_IPV4_TRANSPORT_ADDRESS, LDP_TLV_COMMON_SESSION_PARAMETERS,
    LDP_TLV_ADDRESS_LIST, LDP_TLV_FEC, LDP_TLV_GENERIC_LABEL, LDP_TLV_SIZE,
    parseTLVvalue, bind, Except.bind]

theorem parseOneTLV_gl (lab : Nat) (olen : Option Nat) (h : lab < 4294967296)
    (rest : List Nat) :
    parseOneTLV ((serializeTLV (.GenericLabel lab olen)).2 ++ rest) =
      .ok ((serializeTLV (.GenericLabel lab olen)).1,
        (serializeTLV (.GenericLabel lab olen)).2.length) := by
  simp [serializeTLV, LDPBasicTLV.serializeHdr, be16, be32, parseOneTLV,
    LDPBasicTLV.get_type, tlvParsersKeys, LDP_TLV_COMMON_HELLO_PARAM,
    LDP_TLV_IPV4_TRANSPORT_ADDRESS, LDP_TLV_COMMON_SESSION_PARAMETERS,
    LDP_TLV_ADDRESS_LIST, LDP_TLV_FEC, LDP_TLV_GENERIC_LABEL, LDP_TLV_SIZE,
    parseTLVvalue, recompose_be32 lab h, bind, Except.bind]

theorem parseOneTLV_csp (pv kt pvlim mpl rlsi : Nat) (rid : IPv4)
    (olen : Option Nat) (hpv : pv < 65536) (hkt : kt < 65536)
    (hmpl : mpl < 65536) (hrlsi : rlsi < 65536) (rest : List Nat) :
    parseOneTLV
        ((serializeTLV (.CommonSessionParameters pv kt 0 0 0 pvlim mpl rid rlsi
          olen)).2 ++ rest) =
      .ok ((serializeTLV (.CommonSessionParameters pv kt 0 0 0 pvlim mpl rid rlsi
          olen)).1,
        (serializeTLV (.CommonSessionParameters pv kt 0 0 0 pvlim mpl rid rlsi
          olen)).2.length) := by
  simp [serializeTLV, LDPBasicTLV.serializeHdr, be16, quad4, parseOneTLV,
    LDPBasicTLV.get_type, tlvParsersKeys, LDP_TLV_COMMON_HELLO_PARAM,
    LDP_TLV_IPV4_TRANSPORT_ADDRESS, LDP_TLV_COMMON_SESSION_PARAMETERS,
    LDP_TLV_ADDRESS_LIST, LDP_TLV_FEC, LDP_TLV_GENERIC_LABEL, LDP_TLV_SIZE,
    parseTLVvalue, recompose_be16 pv hpv, recompose_be16 kt hkt,
    recompose_be16 mpl hmpl, recompose_be16 rlsi hrlsi, bind, Except.bind]

theorem parseOneTLV_fec (e : PrefixFecElement) (olen : Option Nat)
    (hat : e.address_type < 65536) (rest : List Nat) :
    parseOneTLV ((serializeTLV (.Fec [e] olen)).2 ++ rest) =
      .ok ((serializeTLV (.Fec [e] olen)).1,
        (serializeTLV (.Fec [e] olen)).2.length) := by
  simp [serializeTLV, LDPBasicTLV.serializeHdr, be16, quad4, parseOneTLV,
    LDPBasicTLV.get_type, tlvParsersKeys, LDP_TLV_COMMON_HELLO_PARAM,
    LDP_TLV_IPV4_TRANSPORT_ADDRESS, LDP_TLV_COMMON_SESSION_PARAMETERS,
    LDP_TLV_ADDRESS_LIST, LDP_TLV_FEC, LDP_TLV_GENERIC_LABEL, LDP_TLV_SIZE,
    LDP_FEC_PREFIX, PrefixFecElement.serialize, parseTLVvalue, parseFecElems,
    parseFecElemsFuel, parseOneFecElem, pad4,
    recompose_be16 e.address_type hat, bind, Except.bind]

theorem serializeTLV_snd_ne_nil (t : LDPTLV) : (serializeTLV t).2 ≠ [] := by
  cases t <;> simp [serializeTLV, LDPBasicTLV.serializeHdr, be16]

/-- Any TLV in the round-trip domain is parsed back, from any byte suffix,
to its serialize-updated object, consuming exactly its own bytes. -/
theorem parseOneTLV_serialize (t : LDPTLV) (h : validTLVb t = true)
    (rest : List Nat) :
    parseOneTLV ((serializeTLV t).2 ++ rest) =
      .ok ((serializeTLV t).1, (serializeTLV t).2.length) := by
  cases t with
  | CommonHelloParameter ht tb rb res olen =>
    simp only [validTLVb, Bool.and_eq_true, decide_eq_true_eq, beq_iff_eq] at h
    obtain ⟨⟨⟨h1, h2⟩, h3⟩, h4⟩ := h
    subst h2; subst h3; subst h4
    exact parseOneTLV_chp ht olen h1 rest
  | IPv4TransportAddress addr olen => exact parseOneTLV_ipv4 addr olen rest
  | AddressList af lst olen =>
    simp only [validTLVb, Bool.and_eq_true, decide_eq_true_eq] at h
    exact parseOneTLV_al af lst olen h.1.1 h.1.2 rest
  | Fec elems olen =>
    match elems with
    | [] => simp [validTLVb] at h
    | e :: e2 :: es => simp [validTLVb] at h
    | [e] =>
      simp only [validTLVb, validFecElementB, Bool.and_eq_true,
        decide_eq_true_eq] at h
      exact parseOneTLV_fec e olen h.1.1 rest
  | GenericLabel lab olen =>
    simp only [validTLVb, decide_eq_true_eq] at h
    exact parseOneTLV_gl lab olen h rest
  | CommonSessionParameters pv kt ab db res pvlim mpl rid rlsi olen =>
    simp only [validTLVb, Bool.and_eq_true, decide_eq_true_eq, beq_iff_eq] at h
    obtain ⟨⟨⟨⟨⟨⟨⟨⟨hpv, hkt⟩, hab⟩, hdb⟩, hres⟩, hpvl⟩, hmpl⟩, hrid⟩, hrlsi⟩ := h
    subst hab; subst hdb; subst hres
    exact parseOneTLV_csp pv kt pvlim mpl rlsi rid olen hpv hkt hmpl hrlsi rest

/-- The TLV loop inverts `serialize_tlvs` on any list of round-trip-domain
TLVs, for any sufficient fuel. -/
theorem parseTLVsFuel_serialize (ts : List LDPTLV) (h : ts.all validTLVb = true) :
    ∀ fuel, (serializeTLVs ts).2.length ≤ fuel →
      parseTLVsFuel fuel (serializeTLVs ts).2 = .ok (serializeTLVs ts).1 := by
  induction ts with
  | nil => intro fuel _; simp [serializeTLVs, parseTLVsFuel]
  | cons t ts ih =>
    intro fuel hfuel
    simp only [List.all_cons, Bool.and_eq_true] at h
    obtain ⟨b, bs, hb⟩ := List.exists_cons_of_ne_nil (serializeTLV_snd_ne_nil t)
    simp only [serializeTLVs] at hfuel ⊢
    rw [hb, List.cons_append] at hfuel ⊢
    have hblen : (serializeTLV t).2.length = bs.length + 1 := by rw [hb]; rfl
    cases fuel with
    | zero => simp [List.length_append] at hfuel
    | succ n =>
      have hone := parseOneTLV_serialize t h.1 (serializeTLVs ts).2
      rw [hb, List.cons_append] at hone
      simp only [parseTLVsFuel, hone, bind, Except.bind]
      have hdrop : List.drop (b :: bs).length (b :: (bs ++ (serializeTLVs ts).2))
          = (serializeTLVs ts).2 := by
        rw [← List.cons_append]; exact List.drop_left _ _
      rw [hdrop, ih h.2 n (by
        simp only [List.length_cons, List.length_append] at hfuel
        omega)]

theorem drop8_cons {α : Type} (a b c d e f g h : α) (l : List α) :
    (a :: b :: c :: d :: e :: f :: g :: h :: l).drop 8 = l := rfl

/-- C1 amended core: on the round-trip domain, `parser` inverts `serialize`
and leaves no bytes over. -/
theorem LDPMessage.parser_serialize (m : LDPMessage) (h : validMessageB m = true) :
    LDPMessage.parser (LDPMessage.serialize m).2 =
      .ok ((LDPMessage.serialize m).1, []) := by
  obtain ⟨ty, ver, olen, rid, lsi, oml, mid, tlvs⟩ := m
  simp only [validMessageB, Bool.and_eq_true, beq_iff_eq, decide_eq_true_eq] at h
  obtain ⟨⟨⟨⟨⟨⟨hty, hver⟩, hlsi⟩, hrid⟩, hmid⟩, hall⟩, hsz⟩ := h
  subst hver; subst hlsi
  have hty16 : ty < 65536 := by
    have h2 := hty
    simp only [msgTypesWithInit, LDP_MSG_HELLO, LDP_MSG_INIT, LDP_MSG_KEEPALIVE,
      LDP_MSG_ADDR, LDP_MSG_LABEL_MAPPING, List.mem_cons, List.not_mem_nil,
      or_false] at h2
    rcases h2 with h | h | h | h | h <;> subst h <;> norm_num
  have hts := parseTLVsFuel_serialize tlvs hall
  simp only [LDPMessage.serialize]
  generalize hTF : (serializeTLVs tlvs).1 = TF at *
  generalize hTB : (serializeTLVs tlvs).2 = TB at *
  have hmblen : (be16 ty ++ (be16 (4 + TB.length) ++ (be32 mid ++ TB))).length
      = TB.length + 8 := by
    simp only [be16, be32, List.length_append, List.length_cons, List.length_nil]
    omega
  have hL : TB.length + 8 + 6 < 65536 := by omega
  have hML : 4 + TB.length < 65536 := by omega
  simp only [List.append_assoc, hmblen]
  simp only [LDPMessage.parser, LDPHeader.parser, be16, quad4, be32,
    List.cons_append, List.nil_append, List.append_assoc]
  norm_num
  rw [if_neg (by omega)]
  simp only [bind, Except.bind]
  simp only [recompose_be16 (TB.length + 8 + 6) hL, recompose_be16 ty hty16,
    recompose_be16 (4 + TB.length) hML, recompose_be32 mid hmid]
  rw [if_neg (by simp only [List.length_cons]; omega)]
  rw [drop8_cons]
  rw [show 4 + TB.length + 4 - 8 = TB.length from by omega, List.take_length]
  have hptlv : parseTLVs TB = .ok TF := hts TB.length (Nat.le_refl _)
  simp only [parseTLVs] at hptlv
  simp only [parseTLVs, hptlv]
  rw [show 4 + TB.length + 4 = 8 + TB.length from by omega, ← List.drop_drop,
    drop8_cons, List.drop_length]
  simp only [mkParsedMessage]
  rw [if_pos hty]

theorem serializeTLVs_length_sum (ts : List LDPTLV) :
    (serializeTLVs ts).2.length =
      (ts.map (fun t => (serializeTLV t).2.length)).sum := by
  induction ts with
  | nil => rfl
  | cons t ts ih => simp [serializeTLVs, ih]

theorem getD2_cons (x0 x1 x2 : Nat) (l : List Nat) :
    (x0 :: x1 :: x2 :: l).getD 2 0 = x2 := rfl

theorem getD3_cons (x0 x1 x2 x3 : Nat) (l : List Nat) :
    (x0 :: x1 :: x2 :: x3 :: l).getD 3 0 = x3 := rfl

theorem getD12_cons (x0 x1 x2 x3 x4 x5 x6 x7 x8 x9 x10 x11 x12 : Nat)
    (l : List Nat) :
    (x0 :: x1 :: x2 :: x3 :: x4 :: x5 :: x6 :: x7 :: x8 :: x9 :: x10 :: x11 ::
      x12 :: l).getD 12 0 = x12 := rfl

theorem getD13_cons (x0 x1 x2 x3 x4 x5 x6 x7 x8 x9 x10 x11 x12 x13 : Nat)
    (l : List Nat) :
    (x0 :: x1 :: x2 :: x3 :: x4 :: x5 :: x6 :: x7 :: x8 :: x9 :: x10 :: x11 ::
      x12 :: x13 :: l).getD 13 0 = x13 := rfl

/-- Claim C1, counterexample.  A Hello whose CommonHelloParameter was built
with `t_bit = 1` — a value inside the one-bit field's valid range — does not
survive the round trip: the keyword constructor stores `t_bit` shifted
(`1 << 15 = 32768`) while the decoder extracts the bit with the wrong mask
(`0x80` against a 16-bit word) and yields `t_bit = 0`, so the parsed message
is not structurally equal to the serialized one. -/
theorem c1_roundtrip_counterexample :
    ¬ (LDPMessage.parser (LDPMessage.serialize helloT1).2 =
        .ok ((LDPMessage.serialize helloT1).1, [])) := by decide

/-- Claim C1, amended.  Parsing the bytes of a serialized message yields the
serialize-updated message with no bytes left over, provided the message is
of a registered type other than Notification, has `version = 1` and
`label_space_id = 0`, its Hello/Session-parameter bit fields are clear,
every FEC TLV holds exactly one prefix element, and all numeric fields are
within their wire ranges (`validMessageB`). -/
theorem c1_roundtrip_amended (m : LDPMessage) (h : validMessageB m = true) :
    LDPMessage.parser (LDPMessage.serialize m).2 =
      .ok ((LDPMessage.serialize m).1, []) :=
  LDPMessage.parser_serialize m h

/-- Claim C1, witness: the repository test's own Hello round-trips. -/
theorem c1_roundtrip_amended_witness :
    LDPMessage.parser (LDPMessage.serialize helloCanonical).2 =
      .ok ((LDPMessage.serialize helloCanonical).1, []) :=
  c1_roundtrip_amended helloCanonical (by decide)

/-- Claim C2, counterexample.  For router ids 1.1.1.1 and 2.2.2.2 the side
with the numerically smaller id (1.1.1.1) computes `is_active = False` —
it takes the passive role — while the larger id computes `is_active = True`:
the code assigns the active role to the numerically larger router id, not
the smaller one as claimed. -/
theorem c2_role_counterexample :
    from_inet_ptoi ⟨1, 1, 1, 1⟩ < from_inet_ptoi ⟨2, 2, 2, 2⟩ ∧
    is_active_role ⟨1, 1, 1, 1⟩ ⟨2, 2, 2, 2⟩ = false ∧
    is_active_role ⟨2, 2, 2, 2⟩ ⟨1, 1, 1, 1⟩ = true := by decide

/-- Claim C2, amended.  For any two distinct valid router ids, evaluating
the role comparison on either side yields exactly one active and one
passive peer, the same assignment on both sides — but the active role goes
to the LSR with the numerically larger router id. -/
theorem c2_role_amended (a b : IPv4) (ha : validQuadB a = true)
    (hb : validQuadB b = true) (hne : a ≠ b) :
    is_active_role a b ≠ is_active_role b a ∧
    (is_active_role a b = true ↔ from_inet_ptoi b < from_inet_ptoi a) := by
  obtain ⟨a1, a2, a3, a4⟩ := a
  obtain ⟨b1, b2, b3, b4⟩ := b
  simp only [validQuadB, Bool.and_eq_true, decide_eq_true_eq] at ha hb
  have hinj : from_inet_ptoi ⟨a1, a2, a3, a4⟩ ≠ from_inet_ptoi ⟨b1, b2, b3, b4⟩ := by
    intro hEq
    apply hne
    simp only [from_inet_ptoi] at hEq
    simp only [IPv4.mk.injEq]
    omega
  constructor
  · simp only [is_active_role, ne_eq, decide_eq_decide]
    simp only [from_inet_ptoi] at hinj ⊢
    omega
  · simp [is_active_role]

/-- Claim C2, witness at the concrete pair 1.1.1.1 / 2.2.2.2. -/
theorem c2_role_amended_witness :
    is_active_role ⟨1, 1, 1, 1⟩ ⟨2, 2, 2, 2⟩ ≠ is_active_role ⟨2, 2, 2, 2⟩ ⟨1, 1, 1, 1⟩ ∧
    (is_active_role ⟨1, 1, 1, 1⟩ ⟨2, 2, 2, 2⟩ = true ↔
      from_inet_ptoi ⟨2, 2, 2, 2⟩ < from_inet_ptoi ⟨1, 1, 1, 1⟩) :=
  c2_role_amended ⟨1, 1, 1, 1⟩ ⟨2, 2, 2, 2⟩ (by decide) (by decide) (by decide)

/-- Claim C3, counterexample.  Truncating the canonical valid Hello encoding
inside the 8-byte message header (prefix of length 12) fails with
`struct.error`, not the TooSmall/TruncatedInput error, and truncating inside
a TLV (prefix of length 30) fails with an `AssertionError` — an uncaught
`assert`, i.e. a panic — contradicting both the designated-error and the
never-panics parts of the claim. -/
theorem c3_truncation_counterexample :
    LDPMessage.parser (helloCanonicalBytes.take 12) = .error .structError ∧
    LDPMessage.parser (helloCanonicalBytes.take 30) = .error .assertError ∧
    PyErr.structError ≠ PyErr.tooSmall ∧ PyErr.assertError ≠ PyErr.tooSmall := by
  decide

/-- Claim C3, amended.  Any buffer shorter than the 10-byte PDU header fails
with the TooSmall (TruncatedInput) error, and every strict prefix of the
canonical valid Hello encoding fails to decode — but the failure is
TooSmall only at the PDU-header and message-length checks; message-header
truncation surfaces `struct.error` and TLV truncation an assertion
failure. -/
theorem c3_truncation_amended :
    (∀ buf : List Nat, buf.length < 10 →
      LDPMessage.parser buf = .error .tooSmall) ∧
    (∀ n, n < helloCanonicalBytes.length →
      (LDPMessage.parser (helloCanonicalBytes.take n)).isOk = false) := by
  constructor
  · intro buf h
    simp [LDPMessage.parser, LDPHeader.parser, if_pos h, bind, Except.bind]
  · decide

/-- Claim C3, witness: the empty buffer fails TooSmall, and the 30-byte
prefix fails. -/
theorem c3_truncation_amended_witness :
    LDPMessage.parser [] = .error .tooSmall ∧
    (LDPMessage.parser (helloCanonicalBytes.take 30)).isOk = false :=
  ⟨c3_truncation_amended.1 [] (by decide), c3_truncation_amended.2 30 (by decide)⟩

/-- Claim C4, counterexample.  A message carrying one recognized TLV and one
TLV of the unregistered type code 0x0999 does not decode to an opaque TLV:
the dispatch `LDPMessage.get_tlv_type` indexes `_tlv_parsers` directly and
decoding fails with `KeyError`. -/
theorem c4_unknown_tlv_counterexample :
    LDPMessage.parser unknownTLVMessageBytes = .error .keyError ∧
    PyErr.keyError ≠ PyErr.tooSmall := by decide

/-- Claim C4, amended.  Decoding any TLV stream whose first TLV carries a
type code outside the registry fails with `KeyError`; no opaque/unknown TLV
value exists, so a message containing an unknown TLV cannot be decoded (and
hence never re-encoded). -/
theorem c4_unknown_tlv_amended (t : Nat) (bs : List Nat) (h16 : t < 65536)
    (hmem : t ∉ tlvParsersKeys) :
    parseTLVs (be16 t ++ bs) = .error .keyError := by
  simp only [parseTLVs, be16, List.cons_append, List.nil_append, List.length_cons]
  simp only [parseTLVsFuel, parseOneTLV, LDPBasicTLV.get_type, bind, Except.bind,
    recompose_be16 t h16]
  rw [if_neg hmem]

/-- Claim C4, witness at type code 0x0999. -/
theorem c4_unknown_tlv_amended_witness :
    parseTLVs (be16 2457 ++ [0, 4, 1, 2, 3, 4]) = .error .keyError :=
  c4_unknown_tlv_amended 2457 [0, 4, 1, 2, 3, 4] (by decide) (by decide)

/-- Claim C5, counterexample.  Decoding a FEC TLV with an empty value
returns a normal `Fec` object with zero elements (no `MalformedFec` error —
no such error exists in ldp.py), and decoding a Prefix FEC element whose
PreLen byte is 33 (> 32) returns a normal element storing 33 (no
`InvalidPrefixLength` error). -/
theorem c5_fec_validation_counterexample :
    parseTLVs emptyFecTLVBytes = .ok [.Fec [] (some 0)] ∧
    parseOneFecElem [2, 0, 1, 33, 10, 0, 0, 0] =
      .ok ({ address_type := 1, element_len := 33,
             pfx := ⟨10, 0, 0, 0⟩ }, 8) := by decide

/-- Claim C5, amended.  Decoding a FEC TLV with zero elements succeeds,
yielding an empty element list, and decoding a Prefix FEC element succeeds
for every PreLen byte value — including values above 32 — storing the value
unvalidated. -/
theorem c5_fec_validation_amended :
    (∀ l : Nat, parseTLVvalue LDP_TLV_FEC l [] = .ok (.Fec [] (some l))) ∧
    (∀ (af el : Nat) (q : IPv4), af < 65536 →
      parseOneFecElem ([LDP_FEC_PREFIX] ++ be16 af ++ [el] ++ quad4 q) =
        .ok ({ address_type := af, element_len := el, pfx := q }, 8)) := by
  constructor
  · intro l
    simp [parseTLVvalue, LDP_TLV_FEC, LDP_TLV_COMMON_HELLO_PARAM,
      LDP_TLV_IPV4_TRANSPORT_ADDRESS, LDP_TLV_ADDRESS_LIST, parseFecElems,
      parseFecElemsFuel, bind, Except.bind]
  · intro af el q haf
    simp [parseOneFecElem, LDP_FEC_PREFIX, be16, quad4, pad4,
      recompose_be16 af haf, bind, Except.bind]

/-- Claim C5, witness: the empty FEC value and a PreLen of 33. -/
theorem c5_fec_validation_amended_witness :
    parseTLVvalue LDP_TLV_FEC 0 [] = .ok (.Fec [] (some 0)) ∧
    parseOneFecElem ([LDP_FEC_PREFIX] ++ be16 1 ++ [33] ++ quad4 ⟨10, 0, 0, 0⟩) =
      .ok ({ address_type := 1, element_len := 33, pfx := ⟨10, 0, 0, 0⟩ }, 8) :=
  ⟨c5_fec_validation_amended.1 0,
   c5_fec_validation_amended.2 1 33 ⟨10, 0, 0, 0⟩ (by decide)⟩

/-- Claim C6.  For every message whose TLV bytes fit the 16-bit length
field — with the caller-supplied `length`, `msg_len` and per-TLV `len`
fields left completely unconstrained — the encoder emits 18 + tlv-bytes
octets; the PDU header length field (bytes 2-3) equals the serialized
message-body length (8 + tlv bytes) plus 6; the message header length field
(bytes 12-13) equals 4 plus the total serialized TLV size; and that total
is the sum of the individual serialized TLV sizes. -/
theorem c6_length_invariants (m : LDPMessage)
    (h : (serializeTLVs m.tlvs).2.length + 14 < 65536) :
    (LDPMessage.serialize m).2.length = 18 + (serializeTLVs m.tlvs).2.length ∧
    ((LDPMessage.serialize m).2.getD 2 0) * 256 + (LDPMessage.serialize m).2.getD 3 0
      = (8 + (serializeTLVs m.tlvs).2.length) + 6 ∧
    ((LDPMessage.serialize m).2.getD 12 0) * 256 + (LDPMessage.serialize m).2.getD 13 0
      = 4 + (serializeTLVs m.tlvs).2.length ∧
    (serializeTLVs m.tlvs).2.length
      = (m.tlvs.map (fun t => (serializeTLV t).2.length)).sum := by
  refine ⟨?_, ?_, ?_, serializeTLVs_length_sum m.tlvs⟩
  · simp only [LDPMessage.serialize, be16, be32, quad4, List.cons_append,
      List.nil_append, List.append_assoc, List.length_append, List.length_cons,
      List.length_nil]
    omega
  · simp only [LDPMessage.serialize, be16, be32, quad4, List.cons_append,
      List.nil_append, List.append_assoc, List.length_append, List.length_cons,
      List.length_nil]
    rw [getD2_cons, getD3_cons]
    omega
  · simp only [LDPMessage.serialize, be16, be32, quad4, List.cons_append,
      List.nil_append, List.append_assoc, List.length_append, List.length_cons,
      List.length_nil]
    rw [getD12_cons, getD13_cons]
    omega

/-- Claim C6, witness at the canonical Hello (16 TLV bytes). -/
theorem c6_length_invariants_witness :
    (LDPMessage.serialize helloCanonical).2.length =
      18 + (serializeTLVs helloCanonical.tlvs).2.length ∧
    ((LDPMessage.serialize helloCanonical).2.getD 2 0) * 256 +
        (LDPMessage.serialize helloCanonical).2.getD 3 0
      = (8 + (serializeTLVs helloCanonical.tlvs).2.length) + 6 ∧
    ((LDPMessage.serialize helloCanonical).2.getD 12 0) * 256 +
        (LDPMessage.serialize helloCanonical).2.getD 13 0
      = 4 + (serializeTLVs helloCanonical.tlvs).2.length ∧
    (serializeTLVs helloCanonical.tlvs).2.length
      = (helloCanonical.tlvs.map (fun t => (serializeTLV t).2.length)).sum :=
  c6_length_invariants helloCanonical (by decide)

/-- Claim C7 (code bug).  The claimed handshake cannot drive the machine
anywhere, and no Notification/Closed path exists:

* entering Initial when the socket is bound (`conn_handle`) raises
  `AttributeError` for either role — `state_change` reads `self.state`,
  an attribute `__init__` never sets;
* `_handle_msg` raises `AttributeError` on every message in every state:
  the Init branch calls the nonexistent method `change_state`, the
  KeepAlive branch reads the nonexistent module attribute
  `ldp.LDP_MSG_OPERATIONAL`, and every other message type evaluates the
  nonexistent `ldp.LDP_MSG_SHUTDOWN` in its branch condition;
* even the transition table itself has no Closed state: Operational's
  `new_state()` is NonExistent. -/
theorem c7_fsm_broken :
    (∀ b : Bool, Peer.conn_handle {} b = .error .attributeError) ∧
    (∀ (p : PeerObj) (t : Nat), Peer.handle_msg p t = .error .attributeError) ∧
    LDPState.new_state .LDPStateOperational = LDP_STATE_NON_EXISTENT := by
  refine ⟨?_, ?_, rfl⟩
  · intro b; cases b <;> rfl
  · intro p t
    unfold Peer.handle_msg
    split_ifs <;> cases hp : p.state <;> cases hi : p.state_impl <;>
      simp [readAttr, ldpModule_LDP_MSG_OPERATIONAL, ldpModule_LDP_MSG_SHUTDOWN,
        hp, hi, bind, Except.bind]

/-- Claim C8 (code bug).  Receiving a KeepAlive while the session is in
Operational does not leave the state unchanged: `_handle_msg` evaluates
`self.state == ldp.LDP_MSG_OPERATIONAL` and ldp.py defines no
`LDP_MSG_OPERATIONAL`, so the handler raises `AttributeError` (the session's
receive loop then tears the connection down). -/
theorem c8_keepalive_broken :
    Peer.handle_msg
        { state := some LDP_STATE_OPERATIONAL,
          state_impl := some .LDPStateOperational,
          state_map := Peer.ACTIVE_STATE_MAP } LDP_MSG_KEEPALIVE =
      .error .attributeError ∧
    ldpModule_LDP_MSG_OPERATIONAL = .error .attributeError := ⟨rfl, rfl⟩

/-- Claim C9, counterexample.  A three-byte garbage datagram arriving on an
interface with no registered peer makes `hello_received` raise the decode
error (TooSmall) instead of logging and dropping it: there is no
`try`/`except` around `LDPMessage.parser` in the handler. -/
theorem c9_decode_failure_counterexample :
    LDPManager.hello_received [] 0 [0, 1, 0] = .error .tooSmall := by decide

/-- Claim C9, amended.  For any registry state with no peer on the receiving
interface, a datagram that fails to decode makes `hello_received` propagate
exactly the decode error; the registry itself is left untouched (each
datagram is handled in a freshly spawned task, so the receive loop keeps
running). -/
theorem c9_decode_failure_amended (peers : List (Nat × PeerEntry))
    (interface : Nat) (packet : List Nat) (e : PyErr)
    (hl : peers.lookup interface = none)
    (hp : LDPMessage.parser packet = .error e) :
    LDPManager.hello_received peers interface packet = .error e := by
  simp [LDPManager.hello_received, hl, hp]

/-- Claim C9, witness: the empty datagram on an empty registry. -/
theorem c9_decode_failure_amended_witness :
    LDPManager.hello_received [] 0 [] = .error .tooSmall :=
  c9_decode_failure_amended [] 0 [] .tooSmall rfl (by decide)

/-- Claim C10.  The peer registry is keyed by the receiving interface: once
any peer is registered for an interface, `hello_received` returns with the
registry unchanged and spawns no session for every further datagram on that
interface — including a well-formed Hello advertising a different router id
(the datagram is not even parsed in that branch). -/
theorem c10_registry_keyed_by_interface (peers : List (Nat × PeerEntry))
    (interface : Nat) (p : PeerEntry) (packet : List Nat)
    (h : peers.lookup interface = some p) :
    LDPManager.hello_received peers interface packet = .ok (peers, []) := by
  simp [LDPManager.hello_received, h]

/-- Claim C10, witness: a registry holding a peer with router id 1.1.1.1 on
interface 0 is unchanged by a Hello from router id 2.2.2.2. -/
theorem c10_registry_keyed_by_interface_witness :
    LDPManager.hello_received peersWithOne 0 helloFromOther =
      .ok (peersWithOne, []) :=
  c10_registry_keyed_by_interface peersWithOne 0
    { router_id := ⟨1, 1, 1, 1⟩, trans_addr := none } helloFromOther (by decide)
